import Mathlib

/-
Verification of the dynamic prompt/token resolution engine
(`prompt_generator.py`): the `Variable` runtime state with its
turn-gated assignability check, and the `PromptGenerator` recursive
token-resolution interpreter with its post-processing pipeline.

The embedding is a shallow one: Python dictionaries become association
lists, Python exceptions become an explicit error type threaded through
state-passing functions, the `map` of the thread pool is serialized in token
order (each task touches only its own root variable, which in the source
is protected by the dedicated lock of that variable), and the unbounded
recursion of `_decode_tokens` is driven by an explicit fuel parameter.
Python integers are `Int` (Python `%` on integers is `Int.emod`).
-/

set_option maxRecDepth 4000

namespace Darma

/-- Dynamic Python values that flow through the generator: `None`, a
string, or a list of strings (the result of `re.findall`). -/
inductive PyVal where
  | none_ : PyVal
  | str : String → PyVal
  | list : List String → PyVal
deriving DecidableEq

/-- Python truthiness for the values above (`None`, `""` and `[]` are falsy). -/
def truthy : PyVal → Bool
  | .none_ => false
  | .str s => s != ""
  | .list xs => !xs.isEmpty

/-- Association-list lookup, modelling Python `dict.__getitem__` /
`dict.get` key search (keys are unique in all states we build). -/
def alookup [BEq α] (k : α) : List (α × β) → Option β
  | [] => none
  | (k1, v) :: rest => if k1 == k then some v else alookup k rest

/-- Python `dict` update: replace the value at an existing key in place
(preserving insertion order), otherwise append the new binding. -/
def dictInsert [BEq α] (k : α) (v : β) : List (α × β) → List (α × β)
  | [] => [(k, v)]
  | (k1, v1) :: rest =>
    if k1 == k then (k1, v) :: rest else (k1, v1) :: dictInsert k v rest

/-- Python `dict.get(k)` with its implicit `None` default: a missing key
and a stored `None` are indistinguishable. -/
def pyDictGet (d : List (Int × PyVal)) (k : Int) : PyVal :=
  match alookup k d with
  | some w => w
  | none => .none_

/-- Python `"sep".join(xs)`. -/
def strJoin (sep : String) : List String → String
  | [] => ""
  | [x] => x
  | x :: xs => x ++ sep ++ strJoin sep xs

/-- Python whitespace for `str.strip()`. -/
def isPySpace (c : Char) : Bool :=
  c == ' ' || c == '\t' || c == '\n' || c == '\r' || c == (Char.ofNat 11) || c == (Char.ofNat 12)

/-- Python `str.strip()`. -/
def pyStrip (s : String) : String :=
  String.mk (((s.data.dropWhile isPySpace).reverse.dropWhile isPySpace).reverse)

/-- Python `str.lower()` (ASCII case mapping suffices for the configs here). -/
def pyLower (s : String) : String := String.mk (s.data.map Char.toLower)

/-- A single-quote character, written via its code point. -/
def sq : String := String.mk [Char.ofNat 39]

/-- Python `repr` of a string as it appears inside `str(list)`, for
strings without quotes or escapes. -/
def pyQuote (s : String) : String := sq ++ s ++ sq

/-- Python `str()` of the values above (`str` of a list of strings uses
single-quoted reprs). -/
def pyStrOf : PyVal → String
  | .none_ => "None"
  | .str s => s
  | .list xs => "[" ++ strJoin ", " (xs.map pyQuote) ++ "]"

/-- Does `pat` occur at the head of the second list? -/
def leadMatch : List Char → List Char → Bool
  | [], _ => true
  | _ :: _, [] => false
  | a :: as, b :: bs => a == b && leadMatch as bs

/-- Python `str.replace` (all non-overlapping occurrences, left to right);
fueled scanner, the wrapper passes the string length as fuel. -/
def charsReplaceAux (pat rep : List Char) : Nat → List Char → List Char
  | 0, s => s
  | _ + 1, [] => []
  | n + 1, c :: cs =>
    if !pat.isEmpty && leadMatch pat (c :: cs) then
      rep ++ charsReplaceAux pat rep n ((c :: cs).drop pat.length)
    else
      c :: charsReplaceAux pat rep n cs

/-- Python `s.replace(pat, rep)` for a non-empty `pat` (all the patterns
the generator substitutes are bracketed tokens, hence non-empty). -/
def strReplace (s pat rep : String) : String :=
  String.mk (charsReplaceAux pat.data rep.data s.data.length s.data)

/-- Word characters of the regex class `\w` (the configs use ASCII). -/
def isWordChar (c : Char) : Bool := c.isAlphanum || c == '_'

/-- Characters allowed inside a `<...>` token: `[\w-]`. -/
def isTokChar (c : Char) : Bool := isWordChar c || c == '-'

/-- Scanner for `re.findall` of the token pattern (open angle bracket,
then `[\w-]+`, then close angle bracket): at each `<`, take the
maximal run of token characters and require a closing `>`; on failure
resume the scan one character after the `<`. Fueled by string length. -/
def findTokensAux : Nat → List Char → List String
  | 0, _ => []
  | _ + 1, [] => []
  | n + 1, c :: rest =>
    if c == '<' then
      let run := rest.takeWhile isTokChar
      match rest.drop run.length with
      | '>' :: tl =>
        if run.isEmpty then findTokensAux n rest
        else String.mk run :: findTokensAux n tl
      | _ => findTokensAux n rest
    else findTokensAux n rest

/-- Model of `re.findall(TOKEN_REGEX, s)`, the token scan of a template. -/
def findTokensS (s : String) : List String := findTokensAux s.data.length s.data

/-- Model of `re.findall(ROOT_TOKEN_REGEX, s)`: the maximal runs of
word characters, used to split a token into root and format parts. -/
def wordRunsAux : Nat → List Char → List String
  | 0, _ => []
  | _ + 1, [] => []
  | n + 1, c :: cs =>
    if isWordChar c then
      String.mk ((c :: cs).takeWhile isWordChar) :: wordRunsAux n ((c :: cs).dropWhile isWordChar)
    else wordRunsAux n cs

/-- All maximal word-character runs of a string, in order. -/
def wordRuns (s : String) : List String := wordRunsAux s.data.length s.data

/-- Key deduplication preserving first-occurrence order, modelling the
keys of the Python dict comprehension `{t: None for t in findall(...)}`. -/
def dedupKeysAux : Nat → List String → List String
  | 0, _ => []
  | _ + 1, [] => []
  | n + 1, x :: xs => x :: dedupKeysAux n (xs.filter (fun y => y != x))

/-- Deduplicated list of template tokens. -/
def dedupKeys (l : List String) : List String := dedupKeysAux l.length l

/-- `re.findall(pat, s)` for a literal (metacharacter-free) pattern,
which is all the claims exercise: every non-overlapping occurrence,
left to right, each match being the pattern itself. -/
def findallLitAux (pat : List Char) : Nat → List Char → List String
  | 0, _ => []
  | _ + 1, [] => []
  | n + 1, c :: cs =>
    if !pat.isEmpty && leadMatch pat (c :: cs) then
      String.mk pat :: findallLitAux pat n ((c :: cs).drop pat.length)
    else findallLitAux pat n cs

/-- Literal-pattern `re.findall`. -/
def findallLit (pat s : String) : List String := findallLitAux pat.data s.data.length s.data

/-- One entry of the `preprocess_variables` configuration (plus the root
instruction, which only carries `instruction`): the keys the source reads
from each parameters dict. -/
structure VarConfig where
  id : String
  instruction : String
  frequency : Option Int
  endpoint : Option String
  post_regex : Option String
  post_func : List String
deriving DecidableEq

/-- The mutable `Variable` object of `prompt_generator.py`: its
configuration parameters together with the runtime state the methods
mutate.  `value = none` models the absence of the `value` key in
`_parameters`; `value = some .none_` models the key holding Python
`None` (both read back as `None` through `.get`, but `get_assignment`
raises `KeyError` only in the first case).  `tokenVals` is the
`_variables` dict: token text mapped to `None` or to the
`(leaf variable, format)` pair installed by `replace` — the leaf
variable is identified by its registry key, since the registry entry is
the very object the source stores a reference to.  `post_func` holds the
configured transform source strings (the source also accepts a single
string, which it wraps into a one-element list). -/
structure Variable where
  id : String
  instruction : String
  frequency : Option Int
  endpoint : Option String
  post_regex : Option String
  post_func : List String
  response : Option String
  value : Option PyVal
  valueFormats : List (String × PyVal)
  tokenVals : List (String × Option (String × String))
  assign_cnt : Int
  assignments : List (Int × PyVal)
deriving DecidableEq

/-- Model of `Variable.__init__`: parse the tokens of the instruction into the
`_variables` dict (keys deduplicated in first-occurrence order, all
mapped to `None`), zero assignment counter, empty assignment history. -/
def Variable.ofConfig (c : VarConfig) : Variable :=
  { id := c.id
    instruction := c.instruction
    frequency := c.frequency
    endpoint := c.endpoint
    post_regex := c.post_regex
    post_func := c.post_func
    response := none
    value := none
    valueFormats := []
    tokenVals := (dedupKeys (findTokensS c.instruction)).map (fun t => (t, none))
    assign_cnt := 0
    assignments := [] }

/-- Model of `Variable(string)`: the source wraps a bare string into a
parameters dict holding only `instruction`, every other parameter absent. -/
def mkVariable (s : String) : Variable :=
  Variable.ofConfig
    { id := "", instruction := s, frequency := none, endpoint := none,
      post_regex := none, post_func := [] }

/-- Model of `Variable.replace(token, value)`: store a decoding under a token key
of `_variables` (the decode pass always uses an existing key). -/
def Variable.replace (v : Variable) (token : String) (dec : Option (String × String)) : Variable :=
  { v with tokenVals := dictInsert token dec v.tokenVals }

/-- Is `self._parameters.get("value")` Python `None` (missing key or a
stored `None`)? -/
def valueIsNone : Option PyVal → Bool
  | none => true
  | some .none_ => true
  | some _ => false

/-- Model of `Variable.get_assignment(format)`: read the base `value`
parameter (`format` falsy, i.e. `""` here) or the `value-<format>`
parameter otherwise; `none` models the `KeyError`
raised when the key was never stored. -/
def Variable.get_assignment (v : Variable) (format : String) : Option PyVal :=
  if format != "" then alookup format v.valueFormats else v.value

/-- Model of `Variable.is_assignable(turn_idx)`: first-use bypass when
the stored value reads back as `None`; refuse when
`_assignments.get(turn_idx)` is not `None`; otherwise gate on
`(turn_idx + 1) % frequency == 0` with the frequency read as
`.get("frequency", turn_idx + 2)`. -/
def Variable.is_assignable (v : Variable) (turn_idx : Int) : Bool :=
  if valueIsNone v.value then true
  else if pyDictGet v.assignments turn_idx != PyVal.none_ then false
  else (turn_idx + 1) % (v.frequency.getD (turn_idx + 2)) == 0

/-- Model of `Variable.assign(value, turn_idx, format)`: with a format,
store only under the `value-<format>` parameter; without one, store
under `value`, increment `_assign_cnt` and record
`_assignments[turn_idx] = value`.  (The `turn_idx` argument of the
source defaults to `None` and is unused on the format branch; it is
passed explicitly here.) -/
def Variable.assign (v : Variable) (value : PyVal) (turn_idx : Int) (format : Option String) : Variable :=
  match format with
  | some f => { v with valueFormats := dictInsert f value v.valueFormats }
  | none =>
    { v with
      value := some value
      assign_cnt := v.assign_cnt + 1
      assignments := dictInsert turn_idx value v.assignments }

/-- Model of `Variable.backspace()`: if `_assignments.get(_assign_cnt)` is truthy,
delete that history entry; then decrement `_assign_cnt` unconditionally. -/
def Variable.backspace (v : Variable) : Variable :=
  let v1 :=
    if truthy (pyDictGet v.assignments v.assign_cnt) then
      { v with assignments := v.assignments.filter (fun p => p.1 != v.assign_cnt) }
    else v
  { v1 with assign_cnt := v1.assign_cnt - 1 }

/-- Errors the Python code can raise while resolving: fuel exhaustion
stands for the unbounded recursion of the source; `undeclaredRoot` is the
configuration error raised when the root name of a token is missing from the
`preprocess_variables` registry (in the source a `KeyError` from the
lock-table lookup, guarded again by the explicit
`not defined in preprocess variables` exception); `indexError` is the
`token_split[0]` failure on a word-free token; `typeError` covers the
`KeyError`/`TypeError`/`AttributeError` failures of substituting or
post-processing a value that is missing or not a string. -/
inductive Err where
  | outOfFuel : Err
  | undeclaredRoot : String → Err
  | indexError : Err
  | typeError : Err
deriving DecidableEq

/-- External inputs of one resolution pass: the endpoint table (a named
endpoint takes the composed messages and returns the response text), the
default endpoint name, the denotation of Python `eval` on a decoded
post-func source string (applied to the running reduction), the
conversation turns `(text, is_seed)`, and the current turn index. -/
structure Env where
  endpoints : String → List (String × String) → String
  defaultEndpoint : String
  evalF : String → PyVal → PyVal
  turns : List (String × Bool)
  turn_idx : Int

/-- Mutable generator state threaded through a pass: the
`preprocess_variables` registry (id to `Variable`, fixed keyset) and the
log of endpoint names invoked, in call order. -/
structure PGState where
  vars : List (String × Variable)
  calls : List String
deriving DecidableEq

/-- Substitution loop of `Variable.__str__`: for each token of
`_variables`, look up the stored `(leaf, format)` decoding, read the
leaf value via `get_assignment(format)` through the registry (the source holds
the very registry object), and replace `<token>` in the running
statement.  `none` models the exceptions: an undecoded token (unpacking
`None`), a `KeyError` from `get_assignment`, or replacing with a
non-string value (`TypeError`). -/
def strVarAux (st : PGState) : List (String × Option (String × String)) → String → Option String
  | [], acc => some acc
  | (tok, dec) :: rest, acc =>
    match dec with
    | none => none
    | some (leafId, fmt) =>
      match alookup leafId st.vars with
      | none => none
      | some leaf =>
        match leaf.get_assignment fmt with
        | some (.str s) => strVarAux st rest (strReplace acc ("<" ++ tok ++ ">") s)
        | _ => none

/-- Model of `Variable.__str__` under a registry state. -/
def strVar (st : PGState) (v : Variable) : Option String :=
  strVarAux st v.tokenVals v.instruction

mutual

/-- Model of `PromptGenerator._decode_tokens._decode_token`: split the
token into root and format, look the root up in the registry (failing
fast when it is undeclared), and — under the dedicated lock of the
root — if the gate `is_assignable(turn_idx)` passes, recursively decode
the template of the leaf itself, call its endpoint on the turns plus
that sub-instruction,
post-process the response with `reduce`, and `assign` the result for the
current turn; otherwise reuse the cached state.  Returns the root key
and the format suffix for the later substitution. -/
def decodeToken (env : Env) (fuel : Nat) (st : PGState) (token : String) :
    PGState × Except Err (String × String) :=
  match fuel with
  | 0 => (st, .error .outOfFuel)
  | fuel + 1 =>
    match wordRuns token with
    | [] => (st, .error .indexError)
    | root :: restParts =>
      let fmt := strJoin "-" restParts
      match alookup root st.vars with
      | none => (st, .error (.undeclaredRoot root))
      | some leaf =>
        if leaf.is_assignable env.turn_idx then
          match decodeTokensVar env fuel st leaf with
          | (st1, .error e) => (st1, .error e)
          | (st1, .ok leaf1) =>
            let st1 := { st1 with vars := dictInsert root leaf1 st1.vars }
            match strVar st1 leaf1 with
            | none => (st1, .error .typeError)
            | some subInstr =>
              let content := pyStrip (strJoin "\n" (env.turns.map (fun p => p.1) ++ [subInstr]))
              let epName := leaf1.endpoint.getD env.defaultEndpoint
              let response := env.endpoints epName [("system", content)]
              let st2 := { st1 with calls := st1.calls ++ [epName] }
              let leaf2 := { leaf1 with response := some response }
              match reduceVar env fuel st2 leaf2 with
              | (st3, .error e) => (st3, .error e)
              | (st3, .ok (leaf3, value)) =>
                let leaf4 := leaf3.assign value env.turn_idx none
                let st4 := { st3 with vars := dictInsert root leaf4 st3.vars }
                (st4, .ok (root, fmt))
        else (st, .ok (root, fmt))

/-- Model of the thread-pool `map` over the tokens of a template,
serialized in token order (each task only touches the registry entry of
its own root, which the source protects with the lock of that root).
As with `ThreadPool.map`, every
task runs even when one fails, and the first failure is re-raised at the
join. -/
def decodeTokenList (env : Env) (fuel : Nat) (st : PGState) (toks : List String) :
    PGState × Except Err (List (String × String)) :=
  match toks with
  | [] => (st, .ok [])
  | t :: ts =>
    match fuel with
    | 0 => (st, .error .outOfFuel)
    | fuel + 1 =>
      match decodeToken env fuel st t with
      | (st1, .error e) =>
        let rest := decodeTokenList env fuel st1 ts
        (rest.1, .error e)
      | (st1, .ok d) =>
        match decodeTokenList env fuel st1 ts with
        | (st2, .error e) => (st2, .error e)
        | (st2, .ok ds) => (st2, .ok (d :: ds))

/-- Model of `PromptGenerator._decode_tokens`: decode every token of
the `_variables` dict of the variable, then install each `(leaf, format)` pair
with `replace`. -/
def decodeTokensVar (env : Env) (fuel : Nat) (st : PGState) (v : Variable) :
    PGState × Except Err Variable :=
  match fuel with
  | 0 => (st, .error .outOfFuel)
  | fuel + 1 =>
    let toks := v.tokenVals.map (fun p => p.1)
    match decodeTokenList env fuel st toks with
    | (st1, .error e) => (st1, .error e)
    | (st1, .ok ds) =>
      (st1, .ok ((toks.zip ds).foldl (fun w p => w.replace p.1 (some p.2)) v))

/-- The post-func loop of `PromptGenerator.reduce`: each transform
source string is itself decoded as a template, stringified, evaluated
with Python `eval`, and applied to the running reduction, in declared
order. -/
def applyFuncs (env : Env) (fuel : Nat) (st : PGState) (fs : List String) (red : PyVal) :
    PGState × Except Err PyVal :=
  match fs with
  | [] => (st, .ok red)
  | f :: rest =>
    match fuel with
    | 0 => (st, .error .outOfFuel)
    | fuel + 1 =>
      match decodeTokensVar env fuel st (mkVariable f) with
      | (st1, .error e) => (st1, .error e)
      | (st1, .ok fv) =>
        match strVar st1 fv with
        | none => (st1, .error .typeError)
        | some fstr => applyFuncs env fuel st1 rest (env.evalF fstr red)

/-- Model of `PromptGenerator.reduce`: start from the raw response; if
a `post_regex` is configured, decode the lowered pattern template,
extract `re.findall(pattern, response.lower())`, and cache its `str()`
under the `list` format; then run the post-func pipeline on the running
value.  Returns the (possibly `list`-augmented) variable and the final
reduction. -/
def reduceVar (env : Env) (fuel : Nat) (st : PGState) (leaf : Variable) :
    PGState × Except Err (Variable × PyVal) :=
  match fuel with
  | 0 => (st, .error .outOfFuel)
  | fuel + 1 =>
    let reduction : PyVal := match leaf.response with | some s => .str s | none => .none_
    match leaf.post_regex with
    | none =>
      match applyFuncs env fuel st leaf.post_func reduction with
      | (st1, .error e) => (st1, .error e)
      | (st1, .ok red) => (st1, .ok (leaf, red))
    | some pr =>
      match decodeTokensVar env fuel st (mkVariable (pyLower pr)) with
      | (st1, .error e) => (st1, .error e)
      | (st1, .ok pv) =>
        match strVar st1 pv with
        | none => (st1, .error .typeError)
        | some pat =>
          match reduction with
          | .str s =>
            let red := PyVal.list (findallLit pat (pyLower s))
            let leaf1 := leaf.assign (.str (pyStrOf red)) env.turn_idx (some "list")
            match applyFuncs env fuel st1 leaf1.post_func red with
            | (st2, .error e) => (st2, .error e)
            | (st2, .ok red2) => (st2, .ok (leaf1, red2))
          | _ => (st1, .error .typeError)

end

/-- Strict role alternation of `_messages_compose`, starting from
`assistant`. -/
def roleAlternate : String → List String → List (String × String)
  | _, [] => []
  | role, t :: ts =>
    (role, t) :: roleAlternate (if role == "assistant" then "user" else "assistant") ts

/-- Model of `PromptGenerator._messages_compose` (with
`few_shot_example` unset, so the `nvc` exemplar branch is not taken):
system message from the
resolved instruction, seed turns joined into the first user message,
non-seed turns alternating assistant/user. -/
def messagesCompose (turns : List (String × Bool)) (sysContent : String) : List (String × String) :=
  let seed := (turns.filter (fun p => p.2)).map (fun p => p.1)
  let nonSeed := (turns.filter (fun p => !p.2)).map (fun p => p.1)
  [("system", sysContent), ("user", pyStrip (strJoin "\n" seed))] ++ roleAlternate "assistant" nonSeed

/-- Model of `PromptGenerator.run(turns, turn_idx)`: decode the root instruction,
stringify it, compose the messages, invoke the default endpoint and
return the stripped response together with the updated instruction
variable.  (The turn-dependent sampling parameters `n`, penalties and
temperature are arguments of the opaque external endpoint and are not
modelled.) -/
def PromptGenerator.run (env : Env) (fuel : Nat) (st : PGState) (instr : Variable) :
    PGState × Except Err (Variable × String) :=
  match fuel with
  | 0 => (st, .error .outOfFuel)
  | fuel + 1 =>
    match decodeTokensVar env fuel st instr with
    | (st1, .error e) => (st1, .error e)
    | (st1, .ok instr1) =>
      match strVar st1 instr1 with
      | none => (st1, .error .typeError)
      | some sysContent =>
        let msgs := messagesCompose env.turns sysContent
        let response := env.endpoints env.defaultEndpoint msgs
        let st2 := { st1 with calls := st1.calls ++ [env.defaultEndpoint] }
        (st2, .ok (instr1, pyStrip response))

/-- Model of `PromptGenerator.backspace`: roll back every registry variable. -/
def PromptGenerator.backspace (st : PGState) : PGState :=
  { st with vars := st.vars.map (fun p => (p.1, p.2.backspace)) }

/-- Observation: the raised error of a resolution result, if any. -/
def errOf : Except Err α → Option Err
  | .error e => some e
  | .ok _ => none

/-- Observation: the successful result of a resolution, if any. -/
def okOf : Except Err α → Option α
  | .ok a => some a
  | .error _ => none

/-! ### Concrete scenarios exercised by the claims -/

/-- A `preprocess_variables` entry with neither declared frequency nor
post-processing. -/
def plainCfg : VarConfig :=
  { id := "w", instruction := "the weather", frequency := none, endpoint := none,
    post_regex := none, post_func := [] }

/-- The same entry with declared `frequency = 2`. -/
def freq2Cfg : VarConfig :=
  { id := "w", instruction := "the weather", frequency := some 2, endpoint := none,
    post_regex := none, post_func := [] }

/-- End-to-end scenario of claim C2: one variable `w`, declared
`frequency = 2`, its own endpoint `"wep"` stubbed to return `"42"`,
root template `"<w>"`. -/
def c2cfg : VarConfig :=
  { id := "w", instruction := "the weather", frequency := some 2, endpoint := some "wep",
    post_regex := none, post_func := [] }

/-- Environment for the C2 scenario at a given turn. -/
def c2Env (t : Int) : Env :=
  { endpoints := fun n _ => if n == "wep" then "42" else "botresp"
    defaultEndpoint := "query_lm"
    evalF := fun _ v => v
    turns := [("hi", true)]
    turn_idx := t }

/-- Initial registry for the C2 scenario. -/
def c2St0 : PGState := { vars := [("w", Variable.ofConfig c2cfg)], calls := [] }

/-- Turn-0 `Run` of the C2 scenario. -/
def c2Run0 : PGState × Except Err (Variable × String) :=
  PromptGenerator.run (c2Env 0) 30 c2St0 (mkVariable "<w>")

/-- Turn-1 `Run` of the C2 scenario, continuing from turn 0. -/
def c2Run1 : PGState × Except Err (Variable × String) :=
  match c2Run0 with
  | (st, .ok (v, _)) => PromptGenerator.run (c2Env 1) 30 st v
  | (st, .error e) => (st, .error e)

/-- Turn-2 `Run` of the C2 scenario, continuing from turn 1. -/
def c2Run2 : PGState × Except Err (Variable × String) :=
  match c2Run1 with
  | (st, .ok (v, _)) => PromptGenerator.run (c2Env 2) 30 st v
  | (st, .error e) => (st, .error e)

/-- Observation for C2: number of calls to the endpoint of `w` so far,
and the resolved root instruction. -/
def c2Obs (r : PGState × Except Err (Variable × String)) : Option (Nat × Option String) :=
  (okOf r.2).map (fun p => (r.1.calls.count "wep", strVar r.1 p.1))

/-- Scenario of claim C3: variable `x` with endpoint `"xep"` returning
`"my answer is 42"`, a literal post-regex `"42"` and one post-func that
projects the first element of the extracted list. -/
def c3cfg : VarConfig :=
  { id := "x", instruction := "find the answer", frequency := none, endpoint := some "xep",
    post_regex := some "42", post_func := ["lambda r: r[0]"] }

/-- Environment for the C3 scenario. -/
def c3Env : Env :=
  { endpoints := fun n _ => if n == "xep" then "my answer is 42" else "z"
    defaultEndpoint := "query_lm"
    evalF := fun f v =>
      if f == "lambda r: r[0]" then
        match v with | .list (a :: _) => .str a | _ => .none_
      else v
    turns := [("t", true)]
    turn_idx := 0 }

/-- Initial registry for the C3 scenario. -/
def c3St0 : PGState := { vars := [("x", Variable.ofConfig c3cfg)], calls := [] }

/-- Resolution of the double-reference template `"<x> <x-list>"`. -/
def c3Res : PGState × Except Err Variable :=
  decodeTokensVar c3Env 30 c3St0 (mkVariable "<x> <x-list>")

/-- Environment for the C4 scenario (any endpoint table; nothing should
be called). -/
def c4Env : Env :=
  { endpoints := fun _ _ => "resp"
    defaultEndpoint := "query_lm"
    evalF := fun _ v => v
    turns := [("t", true)]
    turn_idx := 0 }

/-- Registry for the C4 scenario: only `w` is declared. -/
def c4St : PGState := { vars := [("w", Variable.ofConfig plainCfg)], calls := [] }

/-- Resolution of a template referencing the undeclared root. -/
def c4Res : PGState × Except Err Variable :=
  decodeTokensVar c4Env 30 c4St (mkVariable "<undeclared>")

/-- Scenario of claim C7: variable `p` with two post-funcs `f1`, `f2`;
`evalF` appends `"A"` and `"B"` respectively, so the declared-order
chain on response `"r"` is `"r" -> "rA" -> "rAB"`. -/
def c7cfg : VarConfig :=
  { id := "p", instruction := "produce", frequency := none, endpoint := some "pep",
    post_regex := none, post_func := ["f1", "f2"] }

/-- Environment for the C7 scenario. -/
def c7Env : Env :=
  { endpoints := fun n _ => if n == "pep" then "r" else "z"
    defaultEndpoint := "query_lm"
    evalF := fun f v =>
      match v with
      | .str s => if f == "f1" then .str (s ++ "A") else if f == "f2" then .str (s ++ "B") else v
      | _ => v
    turns := [("t", true)]
    turn_idx := 0 }

/-- Initial registry for the C7 scenario. -/
def c7St0 : PGState := { vars := [("p", Variable.ofConfig c7cfg)], calls := [] }

/-- Resolution of `"<p>"` in the C7 scenario. -/
def c7Res : PGState × Except Err Variable :=
  decodeTokensVar c7Env 30 c7St0 (mkVariable "<p>")

/-- Scenario of claim C9: variable `n` with no `post_regex`, so no
`list`-format value is ever cached. -/
def c9cfg : VarConfig :=
  { id := "n", instruction := "name it", frequency := none, endpoint := some "nep",
    post_regex := none, post_func := [] }

/-- Environment for the C9 scenario. -/
def c9Env : Env :=
  { endpoints := fun n _ => if n == "nep" then "42" else "z"
    defaultEndpoint := "query_lm"
    evalF := fun _ v => v
    turns := [("t", true)]
    turn_idx := 0 }

/-- Initial registry for the C9 scenario. -/
def c9St0 : PGState := { vars := [("n", Variable.ofConfig c9cfg)], calls := [] }

/-- Running the root template `"<n-list>"` in the C9 scenario. -/
def c9Res : PGState × Except Err (Variable × String) :=
  PromptGenerator.run c9Env 30 c9St0 (mkVariable "<n-list>")

/-- Scenario of claim C10: variable `q` whose single post-func evaluates
to `None`, so every reduction is `None`. -/
def c10cfg : VarConfig :=
  { id := "q", instruction := "query", frequency := none, endpoint := some "qep",
    post_regex := none, post_func := ["pf"] }

/-- Environment for the C10 scenario. -/
def c10Env : Env :=
  { endpoints := fun n _ => if n == "qep" then "42" else "z"
    defaultEndpoint := "query_lm"
    evalF := fun _ _ => .none_
    turns := [("t", true)]
    turn_idx := 0 }

/-- Initial registry for the C10 scenario. -/
def c10St0 : PGState := { vars := [("q", Variable.ofConfig c10cfg)], calls := [] }

/-- Resolution of `"<q-a> <q-b>"` (two references to the same root) in
the C10 scenario. -/
def c10Res : PGState × Except Err Variable :=
  decodeTokensVar c10Env 30 c10St0 (mkVariable "<q-a> <q-b>")

/-! ### Helper lemmas -/

/-- Looking up the freshly inserted key of a dict update. -/
theorem alookup_dictInsert_self [BEq α] [LawfulBEq α] (k : α) (v : β) (d : List (α × β)) :
    alookup k (dictInsert k v d) = some v := by
  induction d with
  | nil => simp [dictInsert, alookup]
  | cons p rest ih =>
    obtain ⟨k1, v1⟩ := p
    by_cases h : k1 = k
    · simp [dictInsert, alookup, h]
    · simp [dictInsert, alookup, beq_iff_eq, h, ih]

/-- Dict update leaves every other key unchanged. -/
theorem alookup_dictInsert_ne [BEq α] [LawfulBEq α] (g k : α) (v : β) (d : List (α × β))
    (hgk : g ≠ k) : alookup g (dictInsert k v d) = alookup g d := by
  have hkg : (k == g) = false := by
    cases hh : k == g with
    | false => rfl
    | true => exact absurd (eq_of_beq hh) (Ne.symm hgk)
  induction d with
  | nil => simp [dictInsert, alookup, hkg]
  | cons p rest ih =>
    obtain ⟨k1, v1⟩ := p
    by_cases h : k1 = k
    · subst h
      simp [dictInsert, alookup, hkg]
    · simp [dictInsert, alookup, beq_iff_eq, h, ih]

/-- A token-free template parses to an empty `_variables` dict. -/
theorem mkVariable_tokenVals (s : String) (h : findTokensS s = []) :
    (mkVariable s).tokenVals = [] := by
  simp [mkVariable, Variable.ofConfig, h, dedupKeys, dedupKeysAux]

/-- Stringifying a token-free template yields the template text itself. -/
theorem strVar_tokenfree (st : PGState) (s : String) (h : findTokensS s = []) :
    strVar st (mkVariable s) = some s := by
  show strVarAux st (mkVariable s).tokenVals (mkVariable s).instruction = some s
  rw [mkVariable_tokenVals s h]
  rfl

/-- Decoding a token-free template is a no-op on the state. -/
theorem decodeTokensVar_tokenfree (env : Env) (fuel : Nat) (st : PGState) (s : String)
    (h : findTokensS s = []) (hfuel : 1 ≤ fuel) :
    decodeTokensVar env fuel st (mkVariable s) = (st, .ok (mkVariable s)) := by
  obtain ⟨k, rfl⟩ : ∃ k, fuel = k + 1 := ⟨fuel - 1, by omega⟩
  simp [decodeTokensVar, mkVariable_tokenVals s h, decodeTokenList]

/-- The post-func loop over token-free transform templates is a left
fold of the transform denotations over the running value, in declared
order, with no state change. -/
theorem applyFuncs_tokenfree (env : Env) (st : PGState) :
    ∀ (fs : List String) (fuel : Nat) (red : PyVal), (∀ f ∈ fs, findTokensS f = []) →
      fs.length + 1 ≤ fuel →
      applyFuncs env fuel st fs red = (st, .ok (fs.foldl (fun v f => env.evalF f v) red)) := by
  intro fs
  induction fs with
  | nil =>
    intro fuel red _ _
    simp [applyFuncs]
  | cons f rest ih =>
    intro fuel red hall hfuel
    obtain ⟨k, rfl⟩ : ∃ k, fuel = k + 1 := ⟨fuel - 1, by omega⟩
    have h1 : findTokensS f = [] := hall f (by simp)
    simp only [applyFuncs, decodeTokensVar_tokenfree env k st f h1 (by simp at hfuel; omega),
      strVar_tokenfree st f h1, List.foldl_cons]
    exact ih k (env.evalF f red) (fun g hg => hall g (List.mem_cons_of_mem f hg))
      (by simp at hfuel; omega)

/-- Shape of `reduce` without a `post_regex`: the pipeline starts from
the raw response. -/
theorem reduceVar_noregex (env : Env) (st : PGState) (leaf : Variable) (r : String) (fuel : Nat)
    (hpr : leaf.post_regex = none) (hr : leaf.response = some r)
    (hall : ∀ f ∈ leaf.post_func, findTokensS f = [])
    (hfuel : leaf.post_func.length + 2 ≤ fuel) :
    reduceVar env fuel st leaf =
      (st, .ok (leaf, leaf.post_func.foldl (fun v f => env.evalF f v) (.str r))) := by
  obtain ⟨k, rfl⟩ : ∃ k, fuel = k + 1 := ⟨fuel - 1, by omega⟩
  simp only [reduceVar, hpr, hr]
  rw [applyFuncs_tokenfree env st leaf.post_func k (.str r) hall (by omega)]

/-- Shape of `reduce` with a (token-free, literal) `post_regex`: the
extracted list is cached under the `list` format and the pipeline starts
from that list. -/
theorem reduceVar_regex (env : Env) (st : PGState) (leaf : Variable) (r : String) (pr : String)
    (fuel : Nat)
    (hpr : leaf.post_regex = some pr) (hpat : findTokensS (pyLower pr) = [])
    (hr : leaf.response = some r) (hall : ∀ f ∈ leaf.post_func, findTokensS f = [])
    (hfuel : leaf.post_func.length + 2 ≤ fuel) :
    reduceVar env fuel st leaf =
      (st, .ok (leaf.assign (.str (pyStrOf (.list (findallLit (pyLower pr) (pyLower r)))))
                  env.turn_idx (some "list"),
        leaf.post_func.foldl (fun v f => env.evalF f v)
          (.list (findallLit (pyLower pr) (pyLower r))))) := by
  obtain ⟨k, rfl⟩ : ∃ k, fuel = k + 1 := ⟨fuel - 1, by omega⟩
  simp only [reduceVar, hpr, hr]
  rw [decodeTokensVar_tokenfree env k st (pyLower pr) hpat (by omega)]
  simp only [strVar_tokenfree st (pyLower pr) hpat]
  have hpf : (leaf.assign (.str (pyStrOf (.list (findallLit (pyLower pr) (pyLower r)))))
      env.turn_idx (some "list")).post_func = leaf.post_func := by
    simp [Variable.assign]
  rw [hpf, applyFuncs_tokenfree env st leaf.post_func k
    (.list (findallLit (pyLower pr) (pyLower r))) hall (by omega)]

/-! ### Claims -/

/-- Claim C1: `is_assignable(turnIndex)` returns true unconditionally
when no base-format value has ever been assigned (for every turn index,
any frequency); otherwise false when the history holds a (non-`None`)
entry at that turn; otherwise true iff
`(turnIndex + 1) mod frequency == 0` with
`frequency = declaredFrequency OR turnIndex + 2`.  Concretely, after a
base assignment at turn 0 with no declared frequency the gate refuses
turns 1, 2 and 4, and with declared frequency 2 it passes at turn 1. -/
theorem C1_is_assignable_gate :
    (∀ (v : Variable) (t : Int), v.value = none → v.is_assignable t = true) ∧
    (∀ (v : Variable) (t : Int) (x : PyVal), v.value = some x → x ≠ .none_ →
      pyDictGet v.assignments t ≠ .none_ → v.is_assignable t = false) ∧
    (∀ (v : Variable) (t : Int) (x : PyVal), v.value = some x → x ≠ .none_ →
      pyDictGet v.assignments t = .none_ →
      v.is_assignable t = ((t + 1) % (v.frequency.getD (t + 2)) == 0)) ∧
    (((Variable.ofConfig plainCfg).assign (.str "X") 0 none).is_assignable 1 = false ∧
     ((Variable.ofConfig plainCfg).assign (.str "X") 0 none).is_assignable 2 = false ∧
     ((Variable.ofConfig plainCfg).assign (.str "X") 0 none).is_assignable 4 = false) ∧
    ((Variable.ofConfig freq2Cfg).assign (.str "X") 0 none).is_assignable 1 = true := by
  refine ⟨?_, ?_, ?_, by decide, by decide⟩
  · intro v t hv
    simp [Variable.is_assignable, hv, valueIsNone]
  · intro v t x hv hx hd
    cases x <;> simp_all [Variable.is_assignable, valueIsNone, bne_iff_ne]
  · intro v t x hv hx hd
    cases x <;> simp_all [Variable.is_assignable, valueIsNone, bne_iff_ne]

/-- Witness for C1 at concrete inputs: a fresh variable is assignable at
turn 0; after a truthy base assignment at turn 0 the same turn is
refused, and turn 1 is decided by the frequency formula. -/
theorem C1_is_assignable_gate_witness :
    ((mkVariable "k").is_assignable 0 = true) ∧
    (((Variable.ofConfig plainCfg).assign (.str "X") 0 none).is_assignable 0 = false) ∧
    (((Variable.ofConfig plainCfg).assign (.str "X") 0 none).is_assignable 1 =
      ((1 + 1) % ((((Variable.ofConfig plainCfg).assign (.str "X") 0 none).frequency).getD (1 + 2))
        == 0)) :=
  ⟨C1_is_assignable_gate.1 (mkVariable "k") 0 rfl,
   C1_is_assignable_gate.2.1 ((Variable.ofConfig plainCfg).assign (.str "X") 0 none) 0 (.str "X")
     rfl (by decide) (by decide),
   C1_is_assignable_gate.2.2.1 ((Variable.ofConfig plainCfg).assign (.str "X") 0 none) 1 (.str "X")
     rfl (by decide) (by decide)⟩

/-- Claim C2: with one variable `w` declared with frequency 2, root
template `"<w>"` and an endpoint stub returning `"42"`, turn 0 triggers
exactly one call to the endpoint of `w` and resolves the instruction to
`"42"`; turn 1 triggers exactly one further call (the gate passes);
turn 2 triggers zero further calls and substitutes the cached value. -/
theorem C2_run_frequency_gate :
    c2Obs c2Run0 = some (1, some "42") ∧
    c2Obs c2Run1 = some (2, some "42") ∧
    c2Obs c2Run2 = some (2, some "42") :=
  ⟨by decide, by decide, by decide⟩

/-- Claim C3: resolving `"<x> <x-list>"` triggers exactly one external
call for `x` (the call log holds the single entry `"xep"`); the second
reference is substituted from the `list`-format value cached by the
post-processing pipeline of that single call. -/
theorem C3_same_root_single_call :
    c3Res.1.calls = ["xep"] ∧
    (okOf c3Res.2).map (strVar c3Res.1) = some (some ("42 [" ++ pyQuote "42" ++ "]")) ∧
    (alookup "x" c3Res.1.vars).map (fun l => alookup "list" l.valueFormats) =
      some (some (.str ("[" ++ pyQuote "42" ++ "]"))) :=
  ⟨by decide, by decide, by decide⟩

/-- Claim C4: a token whose root name is not declared in the
preprocess-variables registry raises the configuration error with the
state unchanged — so no external call was attempted for that token and
no partial resolution was committed; concretely, resolving a template
consisting of the token `<undeclared>` against a registry declaring only
`w` fails that way with an empty call log. -/
theorem C4_undeclared_root_fail_fast :
    (∀ (env : Env) (fuel : Nat) (st : PGState) (token root : String) (rest : List String),
      wordRuns token = root :: rest → alookup root st.vars = none →
      decodeToken env (fuel + 1) st token = (st, .error (.undeclaredRoot root))) ∧
    (c4Res.1 = c4St ∧ errOf c4Res.2 = some (.undeclaredRoot "undeclared")) := by
  constructor
  · intro env fuel st token root rest hw hl
    simp [decodeToken, hw, hl]
  · exact ⟨by decide, by decide⟩

/-- Witness for C4: the undeclared token of the concrete scenario fails
fast with the state untouched. -/
theorem C4_undeclared_root_fail_fast_witness :
    decodeToken c4Env (4 + 1) c4St "undeclared" = (c4St, .error (.undeclaredRoot "undeclared")) :=
  C4_undeclared_root_fail_fast.1 c4Env 4 c4St "undeclared" "undeclared" [] (by decide) (by decide)

/-- Counterexample to claim C5: one base assignment at turn 0 (value
`"V"`), then one `backspace`.  The claim asserts the variable returns to
counter 0 with empty history; the code leaves the history entry in
place, because deletion is keyed by the assignment counter (1), not the
assignment turn (0). -/
theorem C5_backspace_counterexample :
    ¬ ((((Variable.ofConfig plainCfg).assign (.str "V") 0 none).backspace.assign_cnt = 0) ∧
       (((Variable.ofConfig plainCfg).assign (.str "V") 0 none).backspace.assignments = [])) := by
  decide

/-- Claim C5 as amended: after exactly one base assignment (at any turn
`t`, any value) one `backspace` returns the counter to 0, but the
history is emptied only when the entry is stored at key 1 (the
pre-backspace counter value) with a truthy value; for any other turn the
single history entry survives. -/
theorem C5_backspace_amended (cfg : VarConfig) (val : PyVal) (t : Int) :
    (((Variable.ofConfig cfg).assign val t none).backspace.assign_cnt = 0) ∧
    (((Variable.ofConfig cfg).assign val t none).backspace.assignments =
      if t = 1 ∧ truthy val = true then [] else [(t, val)]) := by
  constructor
  · by_cases h1 : t = 1 <;> by_cases h2 : truthy val <;>
      simp_all [Variable.ofConfig, Variable.assign, Variable.backspace, dictInsert,
        pyDictGet, alookup, truthy]
  · by_cases h1 : t = 1 <;> by_cases h2 : truthy val = true
    · simp_all [Variable.ofConfig, Variable.assign, Variable.backspace, dictInsert,
        pyDictGet, alookup]
    · simp_all [Variable.ofConfig, Variable.assign, Variable.backspace, dictInsert,
        pyDictGet, alookup]
    · simp_all [Variable.ofConfig, Variable.assign, Variable.backspace, dictInsert,
        pyDictGet, alookup, beq_iff_eq, bne_iff_ne]
    · simp_all [Variable.ofConfig, Variable.assign, Variable.backspace, dictInsert,
        pyDictGet, alookup, beq_iff_eq, bne_iff_ne]

/-- Claim C6 (the code violates it): `backspace` on a variable with zero
assignments drives the counter to `-1` — for every configuration, and in
particular through the registry-wide `PromptGenerator.backspace` — so
the invariant `assignCount >= 0` does not hold in the code. -/
theorem C6_backspace_goes_negative :
    (∀ cfg : VarConfig, (Variable.ofConfig cfg).backspace.assign_cnt = -1) ∧
    ((alookup "w" (PromptGenerator.backspace c4St).vars).map Variable.assign_cnt = some (-1)) := by
  constructor
  · intro cfg
    simp [Variable.ofConfig, Variable.backspace, pyDictGet, alookup, truthy]
  · decide

/-- Counterexample to claim C7: with two transforms whose chain on
response `"r"` is `"r" -> "rA" -> "rAB"`, the value assigned for the
base format is the final `"rAB"`, not the penultimate `"rA"` the claim
names. -/
theorem C7_penultimate_counterexample :
    (alookup "p" c7Res.1.vars).map Variable.value = some (some (.str "rAB")) ∧
    ¬ ((alookup "p" c7Res.1.vars).map Variable.value = some (some (.str "rA"))) :=
  ⟨by decide, by decide⟩

/-- Claim C7 as amended: the post-func transforms are applied in
declared order, the output of each feeding the next, starting from the
raw response (or from the extracted list when a post-regex is
configured), and the final (not penultimate) transformed value is the
value passed to `Assign` for the base format — witnessed concretely by
the `p` scenario, whose assigned base value is the full left fold of the
pipeline. -/
theorem C7_pipeline_amended :
    (∀ (env : Env) (st : PGState) (fs : List String) (fuel : Nat) (red : PyVal),
      (∀ f ∈ fs, findTokensS f = []) → fs.length + 1 ≤ fuel →
      applyFuncs env fuel st fs red = (st, .ok (fs.foldl (fun v f => env.evalF f v) red))) ∧
    (∀ (env : Env) (st : PGState) (leaf : Variable) (r : String) (fuel : Nat),
      leaf.post_regex = none → leaf.response = some r →
      (∀ f ∈ leaf.post_func, findTokensS f = []) → leaf.post_func.length + 2 ≤ fuel →
      reduceVar env fuel st leaf =
        (st, .ok (leaf, leaf.post_func.foldl (fun v f => env.evalF f v) (.str r)))) ∧
    (∀ (env : Env) (st : PGState) (leaf : Variable) (r pr : String) (fuel : Nat),
      leaf.post_regex = some pr → findTokensS (pyLower pr) = [] → leaf.response = some r →
      (∀ f ∈ leaf.post_func, findTokensS f = []) → leaf.post_func.length + 2 ≤ fuel →
      reduceVar env fuel st leaf =
        (st, .ok (leaf.assign (.str (pyStrOf (.list (findallLit (pyLower pr) (pyLower r)))))
                    env.turn_idx (some "list"),
          leaf.post_func.foldl (fun v f => env.evalF f v)
            (.list (findallLit (pyLower pr) (pyLower r)))))) ∧
    ((alookup "p" c7Res.1.vars).map Variable.value =
      some (some (["f1", "f2"].foldl (fun v f => c7Env.evalF f v) (.str "r")))) :=
  ⟨fun env st => applyFuncs_tokenfree env st,
   fun env st leaf r fuel => reduceVar_noregex env st leaf r fuel,
   fun env st leaf r pr fuel hpr hpat hr hall hfuel =>
     reduceVar_regex env st leaf r pr fuel hpr hpat hr hall hfuel,
   by decide⟩

/-- Witness for C7 at concrete inputs: the two-transform pipeline of the
`p` scenario folds `"r"` to `"rAB"`; `reduce` without a post-regex
starts from the raw response; `reduce` of the `x` scenario starts from
the extracted list and caches it under the `list` format. -/
theorem C7_pipeline_amended_witness :
    (applyFuncs c7Env 3 c7St0 ["f1", "f2"] (.str "r") =
      (c7St0, .ok (["f1", "f2"].foldl (fun v f => c7Env.evalF f v) (.str "r")))) ∧
    (reduceVar c7Env 5 c7St0 { Variable.ofConfig c7cfg with response := some "r" } =
      (c7St0, .ok ({ Variable.ofConfig c7cfg with response := some "r" },
        ({ Variable.ofConfig c7cfg with response := some "r" } : Variable).post_func.foldl
          (fun v f => c7Env.evalF f v) (.str "r")))) ∧
    (reduceVar c3Env 5 c3St0 { Variable.ofConfig c3cfg with response := some "my answer is 42" } =
      (c3St0, .ok (({ Variable.ofConfig c3cfg with response := some "my answer is 42" } : Variable).assign
          (.str (pyStrOf (.list (findallLit (pyLower "42") (pyLower "my answer is 42")))))
          c3Env.turn_idx (some "list"),
        ({ Variable.ofConfig c3cfg with response := some "my answer is 42" } : Variable).post_func.foldl
          (fun v f => c3Env.evalF f v)
          (.list (findallLit (pyLower "42") (pyLower "my answer is 42")))))) :=
  ⟨C7_pipeline_amended.1 c7Env c7St0 ["f1", "f2"] 3 (.str "r") (by decide) (by decide),
   C7_pipeline_amended.2.1 c7Env c7St0 { Variable.ofConfig c7cfg with response := some "r" } "r" 5
     rfl rfl (by decide) (by decide),
   C7_pipeline_amended.2.2.1 c3Env c3St0
     { Variable.ofConfig c3cfg with response := some "my answer is 42" } "my answer is 42" "42" 5
     rfl (by decide) rfl (by decide) (by decide)⟩

/-- Claim C8: an `assign` with a non-empty format stores the value only
under the per-format slot: counter, turn-indexed
history and base value are unchanged, the named format slot now holds
the value, and every other format slot is untouched. -/
theorem C8_format_assign_frame (v : Variable) (val : PyVal) (t : Int) (f : String)
    (hf : f ≠ "") :
    ((v.assign val t (some f)).assign_cnt = v.assign_cnt) ∧
    ((v.assign val t (some f)).assignments = v.assignments) ∧
    ((v.assign val t (some f)).value = v.value) ∧
    (alookup f (v.assign val t (some f)).valueFormats = some val) ∧
    (∀ g, g ≠ f → alookup g (v.assign val t (some f)).valueFormats = alookup g v.valueFormats) := by
  refine ⟨rfl, rfl, rfl, ?_, ?_⟩
  · simp [Variable.assign, alookup_dictInsert_self]
  · intro g hg
    simp [Variable.assign, alookup_dictInsert_ne g f val v.valueFormats hg]

/-- Witness for C8: the `list`-format slot of a fresh variable receives
the assigned value. -/
theorem C8_format_assign_frame_witness :
    alookup "list" ((mkVariable "i").assign (.str "42") 0 (some "list")).valueFormats =
      some (.str "42") :=
  (C8_format_assign_frame (mkVariable "i") (.str "42") 0 "list" (by decide)).2.2.2.1

/-- Claim C9: reading a format variant that was never assigned yields
the `KeyError` (`none`), never a fallback to the base value; concretely,
running the template `<n-list>` when `n` has no `post_regex` fails
during substitution with the type/key error even though the base value
`"42"` was assigned by the pass. -/
theorem C9_missing_format_error :
    (∀ (v : Variable) (f : String), f ≠ "" → alookup f v.valueFormats = none →
      v.get_assignment f = none) ∧
    (errOf c9Res.2 = some .typeError ∧
     (alookup "n" c9Res.1.vars).map Variable.value = some (some (.str "42"))) := by
  constructor
  · intro v f hf hl
    simp [Variable.get_assignment, bne_iff_ne, hf, hl]
  · exact ⟨by decide, by decide⟩

/-- Witness for C9: the `list` format of a fresh variable reads as the
key failure. -/
theorem C9_missing_format_error_witness :
    (mkVariable "zz").get_assignment "list" = none :=
  C9_missing_format_error.1 (mkVariable "zz") "list" (by decide) rfl

/-- Claim C10: after `assign(None, t)` for the base format, the variable
is assignable again at every turn (the first-use check reads the `None`
base value as unassigned and the per-turn guard reads the `None` history
entry as absent) while the counter was nevertheless incremented;
concretely, the `q` scenario (every reduction `None`) performs two
external calls within the same turn, with counter 2 and base value
`None`. -/
theorem C10_none_reduction_reassign :
    (∀ (v : Variable) (t u : Int), (v.assign .none_ t none).is_assignable u = true) ∧
    (∀ (v : Variable) (t : Int), (v.assign .none_ t none).assign_cnt = v.assign_cnt + 1) ∧
    (∀ (v : Variable) (t : Int), pyDictGet (v.assign .none_ t none).assignments t = .none_) ∧
    (c10Res.1.calls = ["qep", "qep"] ∧
     (alookup "q" c10Res.1.vars).map Variable.assign_cnt = some 2 ∧
     (alookup "q" c10Res.1.vars).map Variable.value = some (some .none_)) := by
  refine ⟨?_, ?_, ?_, by decide⟩
  · intro v t u
    simp [Variable.assign, Variable.is_assignable, valueIsNone]
  · intro v t
    simp [Variable.assign]
  · intro v t
    simp [Variable.assign, pyDictGet, alookup_dictInsert_self]

end Darma
